import Mathlib

/-!
Shallow embedding of the credential service of ATLBitLab/ssi-service
(pkg/service/credential/service.go), together with proofs about the
claims of its specification.  Go maps are embedded as association
lists, machine state as an explicit `ServiceState`, fallible code as
`Except Err`, and the nondeterministic inputs of the Go code (UUIDs,
the clock, the random status-list index) as an `Oracle` record that is
universally quantified in the theorems.
-/

namespace SSI

/-- JSON-like values appearing in a credential free-form data map. -/
inductive Val
| str : String → Val
| num : Int → Val
| boolean : Bool → Val
deriving DecidableEq

def Val.render : Val → String
| .str s => s
| .num n => toString n
| .boolean b => toString b

/-- The two StatusList2021 purposes. -/
inductive StatusPurpose
| revocation
| suspension
deriving DecidableEq

def StatusPurpose.render : StatusPurpose → String
| .revocation => "revocation"
| .suspension => "suspension"

/-- StatusList2021Entry: the `credentialStatus` payload of a credential. -/
structure StatusListEntry where
  id : String
  statusPurpose : StatusPurpose
  statusListIndex : Nat
  statusListCredential : String
deriving DecidableEq

structure CredentialSchema where
  id : String
  type : String
deriving DecidableEq

/-- The subject of a VC: either free-form claims or, for a StatusList2021
credential, the status-list payload, with the bitstring kept in decoded
form as the list of indices whose bit is set. -/
inductive CredSubject
| claims : List (String × Val) → CredSubject
| statusList : StatusPurpose → List Nat → CredSubject
deriving DecidableEq

structure VerifiableCredential where
  id : String
  issuer : String
  credentialSubject : CredSubject
  credentialSchema : Option CredentialSchema
  credentialStatus : Option StatusListEntry
  context : Option String
  expiry : Option String
  issuanceDate : String
  evidence : List (List (String × Val))
deriving DecidableEq

/-- Bit i of the decoded bitstring of a status-list credential. -/
def decodedBit (c : VerifiableCredential) (i : Nat) : Bool :=
  match c.credentialSubject with
  | .statusList _ l => l.contains i
  | .claims _ => false

/-- A stored credential record (credential namespace), with the secondary
index values issuer / schema / subject materialised as fields. -/
structure StoredCredential where
  localCredentialID : String
  issuer : String
  schema : String
  subject : String
  fullyQualifiedVerificationMethodID : String
  credential : VerifiableCredential
  credentialJWT : String
  revoked : Bool
  suspended : Bool
deriving DecidableEq

/-- Modelled from the spec: `StoredCredential.IsValid` (storage.go is not in
src/): a stored record is valid when it carries its primary key, the local id. -/
def StoredCredential.IsValid (c : StoredCredential) : Bool :=
  c.localCredentialID != ""

def StoredCredential.HasCredentialStatus (c : StoredCredential) : Bool :=
  c.credential.credentialStatus.isSome

/-- Modelled from the spec: `GetStatusPurpose` (storage.go is not in src/):
the status purpose string carried by the credentialStatus field, empty when
the field is absent. -/
def StoredCredential.GetStatusPurpose (c : StoredCredential) : String :=
  match c.credential.credentialStatus with
  | some e => e.statusPurpose.render
  | none => ""

/-- The in-service result record for one credential. -/
structure Container where
  id : String
  fullyQualifiedVerificationMethodID : String
  credential : VerifiableCredential
  credentialJWT : String
  revoked : Bool
  suspended : Bool
deriving DecidableEq

structure Status where
  revoked : Bool
  suspended : Bool
deriving DecidableEq

/-- Errors raised by the embedded service code. -/
inductive Err
| invalidRequest
| atMostOneStatus
| subjectIDConflict (subject : String) (v : Val)
| schemaNotFound (id : String)
| schemaMismatch (id : String)
| invalidEvidence
| buildFailure
| keyNotFound (vmID : String)
| keyControllerMismatch (controller issuer vmID : String)
| keyRevoked (keyID : String)
| signFailure (keyID : String)
| credentialNotFound (id : String)
| credentialNotValid (id : String)
| bothSuspendedRevoked
| noCredentialStatus (id : String)
| noStatusPurpose
| statusListNotFound
| emptyStatusListURI
| cannotInferStatusListID (uri : String)
| missingCredentialStatus (id : String)
| differentStatusPurpose (credPurpose listPurpose : StatusPurpose)
| indexConflict
deriving DecidableEq

/-- The user-visible message of an error, mirroring the Go format strings. -/
def Err.message : Err → String
| .atMostOneStatus => "credential may have at most one status"
| .subjectIDConflict subject v =>
    "cannot set subject<" ++ subject ++ ">, data already contains a different ID value: " ++ v.render
| .invalidEvidence => "invalid evidence format"
| .keyRevoked keyID => "cannot use revoked key<" ++ keyID ++ ">"
| .credentialNotFound id => "credential not found with id: " ++ id
| .bothSuspendedRevoked => "cannot update both suspended and revoked status"
| .noCredentialStatus id => "credential \"" ++ id ++ "\" has no credentialStatus field"
| .differentStatusPurpose credPurpose listPurpose =>
    "credential has a different status purpose<" ++ credPurpose.render ++
      "> value than the status credential<" ++ listPurpose.render ++ ">"
| _ => ""

/-- Keys stored for watch-based optimistic concurrency. -/
structure WatchKey where
  ns : String
  key : String
deriving DecidableEq

/-- Triple key format of the spec: the three components joined with fixed
separators and labels. -/
def tripleKey (issuer schema purpose : String) : String :=
  "is/" ++ issuer ++ "/sc/" ++ schema ++ "/sp/" ++ purpose

def slcWatchKey (issuer schema purpose : String) : WatchKey :=
  { ns := "status-list-credential", key := tripleKey issuer schema purpose }

def poolWatchKey (issuer schema purpose : String) : WatchKey :=
  { ns := "status-list-index-pool", key := tripleKey issuer schema purpose }

def cursorWatchKey (issuer schema purpose : String) : WatchKey :=
  { ns := "status-list-current-index", key := tripleKey issuer schema purpose }

/-- Association-list lookup keyed by strings. -/
def lookupKV {α : Type} (l : List (String × α)) (k : String) : Option α :=
  (l.find? (fun p => p.1 == k)).map (fun p => p.2)

/-- Association-list replace-or-insert keyed by strings. -/
def insertKV {α : Type} (l : List (String × α)) (k : String) (v : α) : List (String × α) :=
  (k, v) :: l.filter (fun p => !(p.1 == k))

/-- The whole persisted state of the service: the credential namespace plus
the three per-triple status-list namespaces. -/
structure ServiceState where
  credentials : List StoredCredential
  statusListCredentials : List (String × StoredCredential)
  indexPools : List (String × List Nat)
  currentIndexes : List (String × Nat)
deriving DecidableEq

/-- Modelled from the spec: credential store read by primary key
(storage.go is not in src/). -/
def getCredential (σ : ServiceState) (id : String) : Option StoredCredential :=
  σ.credentials.find? (fun c => c.localCredentialID == id)

/-- Modelled from the spec: `StoreCredentialTx` (storage.go is not in src/):
replace-or-insert keyed by the local credential id. -/
def storeCredential (σ : ServiceState) (c : StoredCredential) : ServiceState :=
  { σ with credentials :=
      c :: σ.credentials.filter (fun d => !(d.localCredentialID == c.localCredentialID)) }

/-- Modelled from the spec: `GetCredentialsByIssuerAndSchema` (storage.go is
not in src/): every stored credential whose issuer and schema index values
match. -/
def getCredentialsByIssuerAndSchema (σ : ServiceState) (issuer schema : String) :
    List StoredCredential :=
  σ.credentials.filter (fun c => c.issuer == issuer && c.schema == schema)

/-- Modelled from the spec: `GetStatusListCredentialKeyData` (storage.go is
not in src/): the status-list credential record stored under the triple key. -/
def getStatusListCredentialKeyData (σ : ServiceState) (issuer schema purpose : String) :
    Option StoredCredential :=
  lookupKV σ.statusListCredentials (tripleKey issuer schema purpose)

/-- Modelled from the spec: `StoreStatusListCredentialTx` (storage.go is not
in src/): replace-or-insert of the triple keyed status-list record. -/
def storeStatusListCredential (σ : ServiceState) (tk : String) (c : StoredCredential) :
    ServiceState :=
  { σ with statusListCredentials := insertKV σ.statusListCredentials tk c }

/-- Modelled from the spec: `GetStatusListCredential` by id (storage.go is
not in src/). -/
def getStatusListCredentialByID (σ : ServiceState) (id : String) : Option StoredCredential :=
  ((σ.statusListCredentials.find? (fun p => p.2.localCredentialID == id)).map (fun p => p.2))

/-- The id of a stored VC subject, used for the subject secondary index. -/
def subjectID (c : VerifiableCredential) : String :=
  match c.credentialSubject with
  | .claims m =>
    match lookupKV m "id" with
    | some (Val.str s) => s
    | _ => ""
  | .statusList _ _ => ""

/-- Modelled from the spec: how `StoreCredentialTx` derives the stored record
and its secondary index values from a container (storage.go is not in src/). -/
def toStoredCredential (c : Container) : StoredCredential :=
  { localCredentialID := c.id
    issuer := c.credential.issuer
    schema := match c.credential.credentialSchema with
      | some s => s.id
      | none => ""
    subject := subjectID c.credential
    fullyQualifiedVerificationMethodID := c.fullyQualifiedVerificationMethodID
    credential := c.credential
    credentialJWT := c.credentialJWT
    revoked := c.revoked
    suspended := c.suspended }

/-- A key record of the external key store. -/
structure StoredKey where
  id : String
  controller : String
  revoked : Bool
  deriving DecidableEq

/-- The service with its external collaborators: key store, DID key-id
qualification, JWT signer, and schema resolver / validator. -/
structure Service where
  keyStore : String → Option StoredKey
  fullyQualifiedID : String → String → String
  sign : String → VerifiableCredential → Option String
  resolveSchema : String → Option (String × String)
  schemaValid : String → VerifiableCredential → Bool
  servicePath : String

/-- Nondeterministic inputs of one request: the generated UUIDs, the drawn
status-list index and the clock reading. -/
structure Oracle where
  credentialID : String
  statusUUID : String
  drawnIndex : Nat
  now : String
deriving DecidableEq

/-- `signCredentialJWT` of service.go: fetch the signing key, reject a
missing key, a controller that differs from the issuer, and a revoked key,
then sign. -/
def Service.signCredentialJWT (s : Service) (vmID : String) (cred : VerifiableCredential) :
    Except Err String :=
  let keyStoreID := s.fullyQualifiedID cred.issuer vmID
  match s.keyStore keyStoreID with
  | none => .error (.keyNotFound vmID)
  | some gotKey =>
    if gotKey.controller != cred.issuer then
      .error (.keyControllerMismatch gotKey.controller cred.issuer vmID)
    else if gotKey.revoked then
      .error (.keyRevoked gotKey.id)
    else
      match s.sign gotKey.id cred with
      | none => .error (.signFailure gotKey.id)
      | some jwt => .ok jwt

/-- Does this credential carry a status entry whose purpose is the given one? -/
def purposeOK (purpose : StatusPurpose) (c : VerifiableCredential) : Bool :=
  match c.credentialStatus with
  | some e => decide (e.statusPurpose = purpose)
  | none => false

/-- Modelled from the spec: `GenerateStatusList2021Credential` lives in the
external ssi-sdk, not in src/.  Per spec section 6 it rebuilds the
StatusList2021 VC whose decoded bitstring has exactly the bits of the given
credentials' status-list indices set, and per section 4.4 (and the message
asserted by the router test) it fails when an input credential's status
purpose differs from the purpose of the status credential being generated. -/
def generateStatusList2021Credential (uri issuer : String) (purpose : StatusPurpose)
    (creds : List VerifiableCredential) : Except Err VerifiableCredential :=
  match creds.find? (fun c => !purposeOK purpose c) with
  | some bad =>
    match bad.credentialStatus with
    | some e => .error (.differentStatusPurpose e.statusPurpose purpose)
    | none => .error (.missingCredentialStatus bad.id)
  | none =>
    .ok { id := uri
          issuer := issuer
          credentialSubject := .statusList purpose
            (creds.filterMap (fun c => c.credentialStatus.map (fun e => e.statusListIndex)))
          credentialSchema := none
          credentialStatus := none
          context := none
          expiry := none
          issuanceDate := ""
          evidence := [] }

structure CreateCredentialRequest where
  issuer : String
  fullyQualifiedVerificationMethodID : String
  subject : String
  data : List (String × Val)
  schemaID : String
  expiry : String
  context : String
  evidence : List (List (String × Val))
  revocable : Bool
  suspendable : Bool
deriving DecidableEq

def CreateCredentialRequest.hasStatus (r : CreateCredentialRequest) : Bool :=
  r.revocable || r.suspendable

def CreateCredentialRequest.isStatusValid (r : CreateCredentialRequest) : Bool :=
  !(r.revocable && r.suspendable)

def CreateCredentialRequest.hasEvidence (r : CreateCredentialRequest) : Bool :=
  !r.evidence.isEmpty

/-- Modelled from the spec: `validateEvidence` (model.go is not in src/):
every evidence element must be an object carrying both an id and a type. -/
def CreateCredentialRequest.validateEvidence (r : CreateCredentialRequest) : Bool :=
  r.evidence.all (fun m => (lookupKV m "id").isSome && (lookupKV m "type").isSome)

/-- Modelled from the spec: `CreateCredentialRequest.IsValid` (model.go is
not in src/): section 4.2 requires an issuer, a fully-qualified verification
method id, a subject and a data object. -/
def CreateCredentialRequest.reqIsValid (r : CreateCredentialRequest) : Bool :=
  r.issuer != "" && r.fullyQualifiedVerificationMethodID != "" && r.subject != ""

/-- The status purpose a create request asks for. -/
def CreateCredentialRequest.purpose (r : CreateCredentialRequest) : StatusPurpose :=
  if r.suspendable then .suspension else .revocation

/-- Go map update `m[k] = v` on the association-list embedding of a map. -/
def setKey (m : List (String × Val)) (k : String) (v : Val) : List (String × Val) :=
  if (lookupKV m k).isSome then
    m.map (fun p => if p.1 = k then (k, v) else p)
  else
    m ++ [(k, v)]

/-- Modelled from the spec: `createStatusListEntryForCredential` (status.go
is not in src/), per section 4.3: when the triple has no status credential
yet, generate a fresh all-zero StatusList2021 VC under a fresh URI, sign it
with the issuer's key and store the three per-triple records; then draw an
index (the drawn value is the oracle's, and the redraw loop is abstracted
into failing on a pool conflict), insert it into the pool, advance the
cursor and return the entry. -/
def createStatusListEntryForCredential (s : Service) (o : Oracle) (credURI : String)
    (req : CreateCredentialRequest) (tx : ServiceState) :
    Except Err (StatusListEntry × ServiceState) :=
  let purpose := req.purpose
  let tk := tripleKey req.issuer req.schemaID purpose.render
  let prepared : Except Err (String × ServiceState) :=
    match lookupKV tx.statusListCredentials tk with
    | some stored => .ok (stored.credential.id, tx)
    | none =>
      let uri := s.servicePath ++ "/credentials/status/" ++ o.statusUUID
      match generateStatusList2021Credential uri req.issuer purpose [] with
      | .error e => .error e
      | .ok slVC =>
        match s.signCredentialJWT req.fullyQualifiedVerificationMethodID slVC with
        | .error e => .error e
        | .ok jwt =>
          let storedSL := toStoredCredential
            { id := o.statusUUID
              fullyQualifiedVerificationMethodID := req.fullyQualifiedVerificationMethodID
              credential := slVC
              credentialJWT := jwt
              revoked := false
              suspended := false }
          .ok (uri,
            { tx with
              statusListCredentials := insertKV tx.statusListCredentials tk storedSL
              indexPools := insertKV tx.indexPools tk []
              currentIndexes := insertKV tx.currentIndexes tk 0 })
  match prepared with
  | .error e => .error e
  | .ok (uri, tx1) =>
    let pool := (lookupKV tx1.indexPools tk).getD []
    if pool.contains o.drawnIndex then .error .indexConflict
    else
      let tx2 := { tx1 with
        indexPools := insertKV tx1.indexPools tk (o.drawnIndex :: pool)
        currentIndexes := insertKV tx1.currentIndexes tk (o.drawnIndex + 1) }
      .ok ({ id := credURI ++ "/status"
             statusPurpose := purpose
             statusListIndex := o.drawnIndex
             statusListCredential := uri }, tx2)

/-- The tail of `createCredential` of service.go after the status-validity
and subject-id checks, in source order: schema resolution, status entry,
evidence, build, schema validation, signing, and the store. -/
def buildAndStoreCredential (s : Service) (o : Oracle) (req : CreateCredentialRequest)
    (tx : ServiceState) : Except Err (Container × ServiceState) :=
  let credentialURI := s.servicePath ++ "/credentials/" ++ o.credentialID
  let subject := setKey req.data "id" (Val.str req.subject)
  let resolved : Except Err (Option (String × CredentialSchema)) :=
    if req.schemaID != "" then
      match s.resolveSchema req.schemaID with
      | none => .error (.schemaNotFound req.schemaID)
      | some (body, ty) => .ok (some (body, { id := req.schemaID, type := ty }))
    else .ok none
  match resolved with
  | .error e => .error e
  | .ok knownSchema =>
    let statusRes : Except Err (Option StatusListEntry × ServiceState) :=
      if req.hasStatus then
        match createStatusListEntryForCredential s o credentialURI req tx with
        | .error e => .error e
        | .ok (entry, tx1) => .ok (some entry, tx1)
      else .ok (none, tx)
    match statusRes with
    | .error e => .error e
    | .ok (entryOpt, tx1) =>
      if req.hasEvidence && !req.validateEvidence then .error .invalidEvidence
      else
        let cred : VerifiableCredential :=
          { id := credentialURI
            issuer := req.issuer
            credentialSubject := .claims subject
            credentialSchema := knownSchema.map (fun p => p.2)
            credentialStatus := entryOpt
            context := if req.context != "" then some req.context else none
            expiry := if req.expiry != "" then some req.expiry else none
            issuanceDate := o.now
            evidence := if req.hasEvidence then req.evidence else [] }
        if (match knownSchema with
            | some (body, _) => !s.schemaValid body cred
            | none => false) then .error (.schemaMismatch req.schemaID)
        else
          match s.signCredentialJWT req.fullyQualifiedVerificationMethodID cred with
          | .error e => .error e
          | .ok credJWT =>
            let container : Container :=
              { id := o.credentialID
                fullyQualifiedVerificationMethodID := req.fullyQualifiedVerificationMethodID
                credential := cred
                credentialJWT := credJWT
                revoked := false
                suspended := false }
            .ok (container, storeCredential tx1 (toStoredCredential container))

/-- `createCredential` of service.go: the transaction body of credential
creation — the status-validity check, the subject-id conflict check, then
`buildAndStoreCredential`. -/
def createCredential (s : Service) (o : Oracle) (req : CreateCredentialRequest)
    (tx : ServiceState) : Except Err (Container × ServiceState) :=
  if !req.isStatusValid then .error .atMostOneStatus
  else
    match lookupKV req.data "id" with
    | some v =>
      if v != Val.str req.subject then .error (.subjectIDConflict req.subject v)
      else buildAndStoreCredential s o req tx
    | none => buildAndStoreCredential s o req tx

/-- `Execute` of the storage abstraction: run the business-logic function on
a transaction view of the state; commit the written state on success, leave
the state untouched on error.  The function also receives the base state so
reads that Go performs through `ctx` rather than `tx` can be told apart. -/
def Execute {α : Type} (f : ServiceState → ServiceState → Except Err (α × ServiceState))
    (σ : ServiceState) : Except Err α × ServiceState :=
  match f σ σ with
  | .ok (a, σ1) => (.ok a, σ1)
  | .error e => (.error e, σ)

/-- The watch keys `CreateCredential` derives for one request: the three
per-triple keys when a status is requested and the flag pair is valid. -/
def createWatchKeys (req : CreateCredentialRequest) : List WatchKey :=
  if req.hasStatus && req.isStatusValid then
    [slcWatchKey req.issuer req.schemaID req.purpose.render,
     poolWatchKey req.issuer req.schemaID req.purpose.render,
     cursorWatchKey req.issuer req.schemaID req.purpose.render]
  else []

/-- `CreateCredential` of service.go: validate the request, then run
`createCredential` under `Execute`. -/
def CreateCredential (s : Service) (o : Oracle) (req : CreateCredentialRequest)
    (σ : ServiceState) : Except Err Container × ServiceState :=
  if !req.reqIsValid then (.error .invalidRequest, σ)
  else Execute (fun _base tx => createCredential s o req tx) σ

/-- `GetCredential` of service.go. -/
def GetCredential (σ : ServiceState) (id : String) : Except Err Container :=
  match getCredential σ id with
  | none => .error (.credentialNotFound id)
  | some c =>
    if !c.IsValid then .error (.credentialNotValid id)
    else .ok
      { id := c.localCredentialID
        fullyQualifiedVerificationMethodID := ""
        credential := c.credential
        credentialJWT := c.credentialJWT
        revoked := c.revoked
        suspended := c.suspended }

/-- `GetCredentialStatus` of service.go. -/
def GetCredentialStatus (σ : ServiceState) (id : String) : Except Err Status :=
  match getCredential σ id with
  | none => .error (.credentialNotFound id)
  | some c =>
    if !c.IsValid then .error (.credentialNotValid id)
    else .ok { revoked := c.revoked, suspended := c.suspended }

/-- `GetCredentialStatusList` of service.go: the container of a stored
status-list credential, with `Revoked` and `Suspended` hard-wired to false. -/
def GetCredentialStatusList (σ : ServiceState) (id : String) : Except Err Container :=
  match getStatusListCredentialByID σ id with
  | none => .error (.credentialNotFound id)
  | some c =>
    if !c.IsValid then .error (.credentialNotValid id)
    else .ok
      { id := c.localCredentialID
        fullyQualifiedVerificationMethodID := ""
        credential := c.credential
        credentialJWT := c.credentialJWT
        revoked := false
        suspended := false }

structure UpdateCredentialStatusRequest where
  id : String
  revoked : Bool
  suspended : Bool
deriving DecidableEq

/-- `parseIDFromURI` of service.go: the trailing 36 characters of the URI. -/
def parseIDFromURI (uri : String) : Except Err String :=
  if uri.length < 36 then .error (.cannotInferStatusListID uri)
  else .ok (String.mk (uri.toList.drop (uri.length - 36)))

/-- `updateCredentialStatus` of service.go: store the target with the
requested flags, re-collect every credential of the ⟨issuer, schema⟩ pair
from the base state (the Go code reads it through `ctx`, not `tx`), keep
those whose request-purpose flag is set, excluding the target by VC id, add
the target back exactly when the request asserts a flag, regenerate the
status list, re-sign it and store it under the triple watch key. -/
def updateCredentialStatus (s : Service) (base tx : ServiceState)
    (gotCred : StoredCredential) (req : UpdateCredentialStatusRequest) (slcKey : String) :
    Except Err (Container × ServiceState) :=
  let container : Container :=
    { id := gotCred.localCredentialID
      fullyQualifiedVerificationMethodID := gotCred.fullyQualifiedVerificationMethodID
      credential := gotCred.credential
      credentialJWT := gotCred.credentialJWT
      revoked := req.revoked
      suspended := req.suspended }
  let tx1 := storeCredential tx (toStoredCredential container)
  match gotCred.credential.credentialStatus with
  | none => .error (.missingCredentialStatus gotCred.localCredentialID)
  | some entry =>
    let statusListCredentialURI := entry.statusListCredential
    if statusListCredentialURI.length = 0 then .error .emptyStatusListURI
    else
      match parseIDFromURI statusListCredentialURI with
      | .error e => .error e
      | .ok statusListCredentialID =>
        let creds := getCredentialsByIssuerAndSchema base gotCred.issuer gotCred.schema
        let others := creds.filter (fun cred =>
          cred.credential.id != gotCred.credential.id &&
          ((req.revoked && cred.credential.credentialStatus.isSome && cred.revoked) ||
           (req.suspended && cred.credential.credentialStatus.isSome && cred.suspended)))
        let revokedOrSuspendedStatusCreds :=
          others.map (fun c => c.credential) ++
            (if req.revoked || req.suspended then [gotCred.credential] else [])
        let statusPurpose : StatusPurpose := if req.suspended then .suspension else .revocation
        match generateStatusList2021Credential statusListCredentialURI gotCred.issuer
          statusPurpose revokedOrSuspendedStatusCreds with
        | .error e => .error e
        | .ok generated0 =>
          let generated :=
            { generated0 with credentialSchema := gotCred.credential.credentialSchema }
          match s.signCredentialJWT gotCred.fullyQualifiedVerificationMethodID generated with
          | .error e => .error e
          | .ok statusListCredJWT =>
            let statusListContainer : Container :=
              { id := statusListCredentialID
                fullyQualifiedVerificationMethodID := gotCred.fullyQualifiedVerificationMethodID
                credential := generated
                credentialJWT := statusListCredJWT
                revoked := false
                suspended := false }
            let tx2 :=
              storeStatusListCredential tx1 slcKey (toStoredCredential statusListContainer)
            .ok (container, tx2)

/-- `updateCredentialStatusBusinessLogic` of service.go: reject a request
asserting both flags, re-load the credential, short-circuit when the stored
flags already equal the requested ones, and otherwise delegate. -/
def updateCredentialStatusBusinessLogic (s : Service) (base tx : ServiceState)
    (req : UpdateCredentialStatusRequest) (slcKey : String) :
    Except Err (Status × ServiceState) :=
  if req.suspended && req.revoked then .error .bothSuspendedRevoked
  else
    match getCredential base req.id with
    | none => .error (.credentialNotFound req.id)
    | some gotCred =>
      if !gotCred.IsValid then .error (.credentialNotValid req.id)
      else if gotCred.revoked == req.revoked && gotCred.suspended == req.suspended then
        .ok ({ revoked := gotCred.revoked, suspended := gotCred.suspended }, tx)
      else
        match updateCredentialStatus s base tx gotCred req slcKey with
        | .error e => .error e
        | .ok (container, tx1) =>
          .ok ({ revoked := container.revoked, suspended := container.suspended }, tx1)

/-- `statusListCredentialWatchKey` of service.go: the preamble that loads
the credential, requires its credentialStatus field, derives the purpose and
checks the triple's status credential exists, returning the triple watch
key. -/
def statusListCredentialWatchKey (_s : Service) (σ : ServiceState) (id : String) :
    Except Err WatchKey :=
  match getCredential σ id with
  | none => .error (.credentialNotFound id)
  | some gotCred =>
    if !gotCred.HasCredentialStatus then
      .error (.noCredentialStatus gotCred.localCredentialID)
    else
      let statusPurpose := gotCred.GetStatusPurpose
      if statusPurpose = "" then .error .noStatusPurpose
      else
        match getStatusListCredentialKeyData σ gotCred.issuer gotCred.schema statusPurpose with
        | none => .error .statusListNotFound
        | some _ => .ok (slcWatchKey gotCred.issuer gotCred.schema statusPurpose)

/-- `UpdateCredentialStatus` of service.go: derive the single triple watch
key in the preamble (outside the transaction), then run the business logic
under `Execute`. -/
def UpdateCredentialStatusOp (s : Service) (req : UpdateCredentialStatusRequest)
    (σ : ServiceState) : Except Err Status × ServiceState :=
  match statusListCredentialWatchKey s σ req.id with
  | .error e => (.error e, σ)
  | .ok wk =>
    Execute (fun base tx => updateCredentialStatusBusinessLogic s base tx req wk.key) σ

/-- The loop body of `BatchCreateCredentials`: run every item's closure in
order over the shared transaction, stopping at the first failure. -/
def runBatchCreate (s : Service) (items : List (Oracle × CreateCredentialRequest))
    (tx : ServiceState) : Except Err (List Container × ServiceState) :=
  match items with
  | [] => .ok ([], tx)
  | item :: rest =>
    match createCredential s item.1 item.2 tx with
    | .error e => .error e
    | .ok (c, tx1) =>
      match runBatchCreate s rest tx1 with
      | .error e => .error e
      | .ok (cs, tx2) => .ok (c :: cs, tx2)

/-- The watch keys `BatchCreateCredentials` accumulates: each item's triple
watch keys, appended in request order. -/
def batchCreateWatchKeys : List CreateCredentialRequest → List WatchKey
  | [] => []
  | req :: rest => createWatchKeys req ++ batchCreateWatchKeys rest

/-- `BatchCreateCredentials` of service.go: all per-item closures run inside
one `Execute` whose watch keys are `batchCreateWatchKeys`. -/
def BatchCreateCredentials (s : Service) (items : List (Oracle × CreateCredentialRequest))
    (σ : ServiceState) : Except Err (List Container) × ServiceState :=
  Execute (fun _base tx => runBatchCreate s items tx) σ

/-- The signing-key condition of claim C4: the key referenced by the
request is missing, has a controller other than the issuer, or is revoked. -/
def badKeyFor (s : Service) (issuer vmID : String) : Bool :=
  match s.keyStore (s.fullyQualifiedID issuer vmID) with
  | none => true
  | some k => k.controller != issuer || k.revoked

/-! Concrete fixtures used by the witness theorems. -/

def demoIssuer : String := "did:ex:issuer"

def demoKey : StoredKey := { id := "key-1", controller := demoIssuer, revoked := false }

def demoService : Service :=
  { keyStore := fun _ => some demoKey
    fullyQualifiedID := fun _ vm => vm
    sign := fun _ _ => some "signed-jwt"
    resolveSchema := fun _ => none
    schemaValid := fun _ _ => true
    servicePath := "https://ssi-service.com/v1" }

def revokedKeyService : Service :=
  { demoService with keyStore := fun _ => some { id := "key-9", controller := demoIssuer, revoked := true } }

def emptyState : ServiceState :=
  { credentials := [], statusListCredentials := [], indexPools := [], currentIndexes := [] }

def demoOracle : Oracle :=
  { credentialID := "cred-1", statusUUID := "sl-1", drawnIndex := 5, now := "2023-01-01T00:00:00Z" }

def demoOracle2 : Oracle :=
  { credentialID := "cred-2", statusUUID := "sl-2", drawnIndex := 7, now := "2023-01-01T00:00:00Z" }

def demoCreateReq : CreateCredentialRequest :=
  { issuer := demoIssuer
    fullyQualifiedVerificationMethodID := "vm-1"
    subject := "did:test:345"
    data := [("firstName", Val.str "Satoshi")]
    schemaID := ""
    expiry := ""
    context := ""
    evidence := []
    revocable := false
    suspendable := false }

def bothFlagsReq : CreateCredentialRequest :=
  { demoCreateReq with revocable := true, suspendable := true }

def conflictReq : CreateCredentialRequest :=
  { demoCreateReq with data := [("id", Val.str "did:other:999")] }

/-- A 36-character status-list credential URI, the minimum the id parser
accepts. -/
def slURI : String := "000000000000000000000000000000000000"

def entryA : StatusListEntry :=
  { id := "urn:A/status", statusPurpose := .suspension, statusListIndex := 1,
    statusListCredential := slURI }

def entryB : StatusListEntry :=
  { id := "urn:B/status", statusPurpose := .suspension, statusListIndex := 2,
    statusListCredential := slURI }

def vcA : VerifiableCredential :=
  { id := "urn:A", issuer := demoIssuer, credentialSubject := .claims [("id", Val.str "did:s:A")],
    credentialSchema := none, credentialStatus := some entryA, context := none,
    expiry := none, issuanceDate := "t0", evidence := [] }

def vcB : VerifiableCredential :=
  { id := "urn:B", issuer := demoIssuer, credentialSubject := .claims [("id", Val.str "did:s:B")],
    credentialSchema := none, credentialStatus := some entryB, context := none,
    expiry := none, issuanceDate := "t0", evidence := [] }

def storedA : StoredCredential :=
  { localCredentialID := "A", issuer := demoIssuer, schema := "", subject := "did:s:A",
    fullyQualifiedVerificationMethodID := "vm-1", credential := vcA, credentialJWT := "jwtA",
    revoked := false, suspended := true }

def storedB : StoredCredential :=
  { localCredentialID := "B", issuer := demoIssuer, schema := "", subject := "did:s:B",
    fullyQualifiedVerificationMethodID := "vm-1", credential := vcB, credentialJWT := "jwtB",
    revoked := false, suspended := true }

def suspTK : String := tripleKey demoIssuer "" "suspension"

def slVC : VerifiableCredential :=
  { id := slURI, issuer := demoIssuer, credentialSubject := .statusList .suspension [1, 2],
    credentialSchema := none, credentialStatus := none, context := none,
    expiry := none, issuanceDate := "t0", evidence := [] }

def storedSL : StoredCredential :=
  { localCredentialID := slURI, issuer := demoIssuer, schema := "", subject := "",
    fullyQualifiedVerificationMethodID := "vm-1", credential := slVC, credentialJWT := "jwtSL",
    revoked := false, suspended := false }

/-- Two suspendable credentials A and B of one triple, both currently
suspended, with the triple's status list carrying both bits. -/
def twoSuspendedState : ServiceState :=
  { credentials := [storedA, storedB]
    statusListCredentials := [(suspTK, storedSL)]
    indexPools := [(suspTK, [1, 2])]
    currentIndexes := [(suspTK, 3)] }

def unsuspendB : UpdateCredentialStatusRequest := { id := "B", revoked := false, suspended := false }

def noopSuspendB : UpdateCredentialStatusRequest := { id := "B", revoked := false, suspended := true }

def entryR : StatusListEntry :=
  { id := "urn:R/status", statusPurpose := .revocation, statusListIndex := 1,
    statusListCredential := slURI }

def vcR : VerifiableCredential :=
  { id := "urn:R", issuer := demoIssuer, credentialSubject := .claims [("id", Val.str "did:s:R")],
    credentialSchema := none, credentialStatus := some entryR, context := none,
    expiry := none, issuanceDate := "t0", evidence := [] }

def storedR : StoredCredential :=
  { localCredentialID := "R", issuer := demoIssuer, schema := "", subject := "did:s:R",
    fullyQualifiedVerificationMethodID := "vm-1", credential := vcR, credentialJWT := "jwtR",
    revoked := false, suspended := false }

def revTK : String := tripleKey demoIssuer "" "revocation"

def slVCRev : VerifiableCredential :=
  { id := slURI, issuer := demoIssuer, credentialSubject := .statusList .revocation [],
    credentialSchema := none, credentialStatus := none, context := none,
    expiry := none, issuanceDate := "t0", evidence := [] }

def storedSLRev : StoredCredential :=
  { localCredentialID := slURI, issuer := demoIssuer, schema := "", subject := "",
    fullyQualifiedVerificationMethodID := "vm-1", credential := slVCRev, credentialJWT := "jwtSLR",
    revoked := false, suspended := false }

/-- One revocation-purpose credential R, currently unrevoked. -/
def revState : ServiceState :=
  { credentials := [storedR]
    statusListCredentials := [(revTK, storedSLRev)]
    indexPools := [(revTK, [1])]
    currentIndexes := [(revTK, 2)] }

def suspendR : UpdateCredentialStatusRequest := { id := "R", revoked := false, suspended := true }

def vcN : VerifiableCredential :=
  { id := "urn:N", issuer := demoIssuer, credentialSubject := .claims [("id", Val.str "did:s:N")],
    credentialSchema := none, credentialStatus := none, context := none,
    expiry := none, issuanceDate := "t0", evidence := [] }

def storedN : StoredCredential :=
  { localCredentialID := "N", issuer := demoIssuer, schema := "", subject := "did:s:N",
    fullyQualifiedVerificationMethodID := "vm-1", credential := vcN, credentialJWT := "jwtN",
    revoked := false, suspended := false }

/-- One stored credential with no credentialStatus field. -/
def noStatusState : ServiceState :=
  { credentials := [storedN], statusListCredentials := [], indexPools := [], currentIndexes := [] }

/-- A stored status-list record whose flag fields were set, to show
`GetCredentialStatusList` ignores them. -/
def storedSLFlagged : StoredCredential :=
  { storedSL with revoked := true, suspended := true }

def flaggedSLState : ServiceState :=
  { credentials := [], statusListCredentials := [(suspTK, storedSLFlagged)],
    indexPools := [], currentIndexes := [] }

def dfltVC : VerifiableCredential :=
  { id := "", issuer := "", credentialSubject := .claims [], credentialSchema := none,
    credentialStatus := none, context := none, expiry := none, issuanceDate := "",
    evidence := [] }

def dfltContainer : Container :=
  { id := "", fullyQualifiedVerificationMethodID := "", credential := dfltVC,
    credentialJWT := "", revoked := false, suspended := false }

def c8resp : Container :=
  ((CreateCredential demoService demoOracle demoCreateReq emptyState).1.toOption).getD dfltContainer

def c8state : ServiceState :=
  (CreateCredential demoService demoOracle demoCreateReq emptyState).2

def demoItems : List (Oracle × CreateCredentialRequest) :=
  [(demoOracle, demoCreateReq), (demoOracle2, demoCreateReq)]

def demoReqs : List CreateCredentialRequest := demoItems.map (fun it => it.2)

/-! ## Claim theorems -/

/-- C1: the spec claims that after a successful UpdateCredentialStatus the
regenerated status list stored for the triple has bit i set iff some stored
credential of the triple has index i and the purpose flag true, the set
handed to the generator being every flag-true member except the target,
plus the target exactly when the request asserts the flag true.  The code
violates this: the rebuild loop conditions membership on the request's
flags, so a request that clears the flag hands the generator the empty set
and wipes the set bits of every other still-flagged credential.  Concretely,
with credentials A and B of one suspension triple both stored suspended
(indices 1 and 2), unsuspending B succeeds and leaves A stored with
suspended = true, yet bit 1 of the regenerated status list is cleared. -/
theorem c1_statuslist_regeneration_bug :
    (UpdateCredentialStatusOp demoService unsuspendB twoSuspendedState).1 =
      .ok { revoked := false, suspended := false } ∧
    (getCredential (UpdateCredentialStatusOp demoService unsuspendB twoSuspendedState).2 "A").map
      (fun c => c.suspended) = some true ∧
    (lookupKV
        (UpdateCredentialStatusOp demoService unsuspendB twoSuspendedState).2.statusListCredentials
        suspTK).map
      (fun c => decodedBit c.credential 1) = some false := by
  refine ⟨rfl, by decide, by decide⟩

/-- C3: a create request carrying both the revocable and the suspendable
flag fails with the at-most-one-status error (raised inside the transaction
body before anything is written) and the state is left untouched, so no
credential, status list, index-pool entry or cursor is persisted. -/
theorem c3_create_both_flags_rejected (s : Service) (o : Oracle)
    (req : CreateCredentialRequest) (σ : ServiceState)
    (hval : req.reqIsValid = true) (hr : req.revocable = true) (hsu : req.suspendable = true) :
    CreateCredential s o req σ = (.error .atMostOneStatus, σ) ∧
    Err.atMostOneStatus.message = "credential may have at most one status" := by
  constructor
  · simp [CreateCredential, hval, Execute, createCredential,
      CreateCredentialRequest.isStatusValid, hr, hsu]
  · rfl

/-- Witness for C3 at a concrete both-flag request. -/
theorem c3_witness :
    CreateCredential demoService demoOracle bothFlagsReq emptyState =
      (.error .atMostOneStatus, emptyState) ∧
    Err.atMostOneStatus.message = "credential may have at most one status" :=
  c3_create_both_flags_rejected demoService demoOracle bothFlagsReq emptyState
    (by decide) (by decide) (by decide)

/-- C6: updating the status of a stored credential whose VC has no
credentialStatus field fails in the preamble that derives the watch key,
with the has-no-credentialStatus-field message, and the state is returned
untouched: the transaction body never runs. -/
theorem c6_update_without_status_field (s : Service) (σ : ServiceState)
    (req : UpdateCredentialStatusRequest) (c : StoredCredential)
    (hget : getCredential σ req.id = some c)
    (hst : c.credential.credentialStatus = none) :
    UpdateCredentialStatusOp s req σ = (.error (.noCredentialStatus c.localCredentialID), σ) ∧
    (Err.noCredentialStatus c.localCredentialID).message =
      "credential \"" ++ c.localCredentialID ++ "\" has no credentialStatus field" := by
  constructor
  · simp [UpdateCredentialStatusOp, statusListCredentialWatchKey, hget,
      StoredCredential.HasCredentialStatus, hst]
  · rfl

/-- Witness for C6 at a concrete stored credential with no status field. -/
theorem c6_witness :
    UpdateCredentialStatusOp demoService { id := "N", revoked := true, suspended := false }
        noStatusState =
      (.error (.noCredentialStatus storedN.localCredentialID), noStatusState) ∧
    (Err.noCredentialStatus storedN.localCredentialID).message =
      "credential \"" ++ storedN.localCredentialID ++ "\" has no credentialStatus field" :=
  c6_update_without_status_field demoService noStatusState
    { id := "N", revoked := true, suspended := false } storedN (by decide) (by decide)

/-- C10: whenever GetCredentialStatusList succeeds it reports
Revoked = false and Suspended = false, whatever flags the stored record
carries. -/
theorem c10_statuslist_never_reported_flagged (σ : ServiceState) (id : String)
    (c : StoredCredential)
    (hget : getStatusListCredentialByID σ id = some c) (hval : c.IsValid = true) :
    GetCredentialStatusList σ id = .ok
      { id := c.localCredentialID
        fullyQualifiedVerificationMethodID := ""
        credential := c.credential
        credentialJWT := c.credentialJWT
        revoked := false
        suspended := false } := by
  simp [GetCredentialStatusList, hget, hval]

/-- Witness for C10 at a stored status-list record whose stored flags are
both true: the response still reports both false. -/
theorem c10_witness :
    GetCredentialStatusList flaggedSLState slURI = .ok
      { id := storedSLFlagged.localCredentialID
        fullyQualifiedVerificationMethodID := ""
        credential := storedSLFlagged.credential
        credentialJWT := storedSLFlagged.credentialJWT
        revoked := false
        suspended := false } :=
  c10_statuslist_never_reported_flagged flaggedSLState slURI storedSLFlagged
    (by decide) (by decide)

/-- C2: an update request whose two flags equal the flags currently stored
on the credential is a no-op: the business logic returns the current status
and hands back the transaction state unchanged, so nothing is rewritten,
regenerated or re-signed. -/
theorem c2_noop_update (s : Service) (σ : ServiceState) (req : UpdateCredentialStatusRequest)
    (c : StoredCredential) (entry : StatusListEntry) (slc : StoredCredential)
    (hget : getCredential σ req.id = some c)
    (hval : c.IsValid = true)
    (hst : c.credential.credentialStatus = some entry)
    (hslc : getStatusListCredentialKeyData σ c.issuer c.schema entry.statusPurpose.render =
      some slc)
    (hr : c.revoked = req.revoked) (hs : c.suspended = req.suspended)
    (hboth : (req.suspended && req.revoked) = false) :
    UpdateCredentialStatusOp s req σ =
      (.ok { revoked := c.revoked, suspended := c.suspended }, σ) := by
  have hrend : entry.statusPurpose.render ≠ "" := by
    cases entry.statusPurpose <;> simp [StatusPurpose.render]
  simp [UpdateCredentialStatusOp, statusListCredentialWatchKey, hget,
    StoredCredential.HasCredentialStatus, StoredCredential.GetStatusPurpose, hst, hrend, hslc,
    Execute, updateCredentialStatusBusinessLogic, hboth, hval, hr, hs]

/-- Witness for C2: re-asserting suspended = true on the already-suspended
credential B returns the current status and the untouched state. -/
theorem c2_witness :
    UpdateCredentialStatusOp demoService noopSuspendB twoSuspendedState =
      (.ok { revoked := storedB.revoked, suspended := storedB.suspended }, twoSuspendedState) :=
  c2_noop_update demoService twoSuspendedState noopSuspendB storedB entryB storedSL
    (by decide) (by decide) (by decide) (by decide) (by decide) (by decide) (by decide)

/-- When every credential of the prefix carries the generation purpose and
the last one carries a different purpose, the status-list generator fails
with the purpose-mismatch error for the last one. -/
lemma generate_error_of_mismatch (uri issuer : String) (q : StatusPurpose)
    (l : List VerifiableCredential) (v : VerifiableCredential) (e : StatusListEntry)
    (hall : ∀ x ∈ l, purposeOK q x = true)
    (hv : v.credentialStatus = some e) (hne : e.statusPurpose ≠ q) :
    generateStatusList2021Credential uri issuer q (l ++ [v]) =
      .error (.differentStatusPurpose e.statusPurpose q) := by
  have h1 : l.find? (fun x => !purposeOK q x) = none :=
    List.find?_eq_none.2 (fun x hx => by simp [hall x hx])
  have h2 : purposeOK q v = false := by simp [purposeOK, hv, hne]
  unfold generateStatusList2021Credential
  rw [List.find?_append, h1, Option.none_or,
    List.find?_cons_of_pos _ (by simp [h2])]
  simp [hv]

/-- The transaction helper `updateCredentialStatus` fails with the
purpose-mismatch error whenever the request asserts a flag whose purpose
differs from the target credential's status purpose, provided every other
credential selected by the rebuild loop carries the request purpose. -/
lemma updateCredentialStatus_purpose_mismatch (s : Service) (base tx : ServiceState)
    (gotCred : StoredCredential) (req : UpdateCredentialStatusRequest) (slcKey : String)
    (entry : StatusListEntry)
    (hst : gotCred.credential.credentialStatus = some entry)
    (huri : 36 ≤ entry.statusListCredential.length)
    (hassert : (req.revoked || req.suspended) = true)
    (hq : entry.statusPurpose ≠
      (if req.suspended then StatusPurpose.suspension else StatusPurpose.revocation))
    (hothers : ∀ d ∈ getCredentialsByIssuerAndSchema base gotCred.issuer gotCred.schema,
        (d.credential.id != gotCred.credential.id &&
         ((req.revoked && d.credential.credentialStatus.isSome && d.revoked) ||
          (req.suspended && d.credential.credentialStatus.isSome && d.suspended))) = true →
        purposeOK (if req.suspended then StatusPurpose.suspension else StatusPurpose.revocation)
          d.credential = true) :
    updateCredentialStatus s base tx gotCred req slcKey =
      .error (.differentStatusPurpose entry.statusPurpose
        (if req.suspended then StatusPurpose.suspension else StatusPurpose.revocation)) := by
  have hlen0 : ¬(entry.statusListCredential.length = 0) := by omega
  have hlt : ¬(entry.statusListCredential.length < 36) := by omega
  have hgen := generate_error_of_mismatch entry.statusListCredential gotCred.issuer
    (if req.suspended then StatusPurpose.suspension else StatusPurpose.revocation)
    (((getCredentialsByIssuerAndSchema base gotCred.issuer gotCred.schema).filter
      (fun cred =>
        cred.credential.id != gotCred.credential.id &&
        ((req.revoked && cred.credential.credentialStatus.isSome && cred.revoked) ||
         (req.suspended && cred.credential.credentialStatus.isSome && cred.suspended)))).map
      (fun c => c.credential))
    gotCred.credential entry
    (by
      intro x hx
      rcases List.mem_map.1 hx with ⟨d, hd, hdx⟩
      rcases List.mem_filter.1 hd with ⟨hdm, hdc⟩
      exact hdx ▸ hothers d hdm hdc)
    hst hq
  unfold updateCredentialStatus parseIDFromURI
  rw [hst]
  simp only [if_neg hlen0, if_neg hlt, hassert, if_true]
  rw [hgen]

/-- C5: an update request asserting a flag whose purpose differs from the
target credential's existing status purpose fails with the
different-status-purpose error carrying both purposes, and the state —
including the credential's stored flags — is unchanged. -/
theorem c5_purpose_mismatch_rejected (s : Service) (σ : ServiceState)
    (req : UpdateCredentialStatusRequest) (c : StoredCredential)
    (entry : StatusListEntry) (slc : StoredCredential)
    (hget : getCredential σ req.id = some c)
    (hval : c.IsValid = true)
    (hst : c.credential.credentialStatus = some entry)
    (hslc : getStatusListCredentialKeyData σ c.issuer c.schema entry.statusPurpose.render =
      some slc)
    (huri : 36 ≤ entry.statusListCredential.length)
    (hboth : (req.suspended && req.revoked) = false)
    (hdiff : ¬(c.revoked = req.revoked ∧ c.suspended = req.suspended))
    (hassert : (req.revoked || req.suspended) = true)
    (hq : entry.statusPurpose ≠
      (if req.suspended then StatusPurpose.suspension else StatusPurpose.revocation))
    (hothers : ∀ d ∈ getCredentialsByIssuerAndSchema σ c.issuer c.schema,
        (d.credential.id != c.credential.id &&
         ((req.revoked && d.credential.credentialStatus.isSome && d.revoked) ||
          (req.suspended && d.credential.credentialStatus.isSome && d.suspended))) = true →
        purposeOK (if req.suspended then StatusPurpose.suspension else StatusPurpose.revocation)
          d.credential = true) :
    UpdateCredentialStatusOp s req σ =
      (.error (.differentStatusPurpose entry.statusPurpose
        (if req.suspended then StatusPurpose.suspension else StatusPurpose.revocation)), σ) ∧
    (Err.differentStatusPurpose entry.statusPurpose
        (if req.suspended then StatusPurpose.suspension else StatusPurpose.revocation)).message =
      "credential has a different status purpose<" ++ entry.statusPurpose.render ++
        "> value than the status credential<" ++
        (if req.suspended then StatusPurpose.suspension else StatusPurpose.revocation).render ++
        ">" := by
  have hrend : entry.statusPurpose.render ≠ "" := by
    cases entry.statusPurpose <;> simp [StatusPurpose.render]
  have hflagsne : (c.revoked == req.revoked && c.suspended == req.suspended) = false := by
    cases hrv : (c.revoked == req.revoked) <;> cases hsv : (c.suspended == req.suspended) <;>
      simp_all
  have hupd := updateCredentialStatus_purpose_mismatch s σ σ c req
    (slcWatchKey c.issuer c.schema entry.statusPurpose.render).key entry hst huri hassert hq
    hothers
  constructor
  · simp [UpdateCredentialStatusOp, statusListCredentialWatchKey, hget,
      StoredCredential.HasCredentialStatus, StoredCredential.GetStatusPurpose, hst, hrend, hslc,
      Execute, updateCredentialStatusBusinessLogic, hboth, hval, hflagsne, hupd]
  · rfl

/-- Witness for C5: suspending the revocation-purpose credential R fails
with the purpose-mismatch error and leaves the state unchanged. -/
theorem c5_witness :
    UpdateCredentialStatusOp demoService suspendR revState =
      (.error (.differentStatusPurpose StatusPurpose.revocation StatusPurpose.suspension),
        revState) ∧
    (Err.differentStatusPurpose StatusPurpose.revocation StatusPurpose.suspension).message =
      "credential has a different status purpose<revocation> value than the status " ++
        "credential<suspension>" :=
  c5_purpose_mismatch_rejected demoService revState suspendR storedR entryR storedSLRev
    (by decide) (by decide) (by decide) (by decide) (by decide) (by decide) (by decide)
    (by decide) (by decide) (by decide)

/-- Under the bad-key condition, `signCredentialJWT` never succeeds. -/
lemma signCredentialJWT_not_ok_of_badKey (s : Service) (vm : String)
    (cred : VerifiableCredential) (h : badKeyFor s cred.issuer vm = true) :
    (s.signCredentialJWT vm cred).isOk = false := by
  unfold badKeyFor at h
  unfold Service.signCredentialJWT
  cases hk : s.keyStore (s.fullyQualifiedID cred.issuer vm) with
  | none =>
    simp only [hk]
    rfl
  | some k =>
    rw [hk] at h
    cases hc : (k.controller != cred.issuer) with
    | true =>
      simp only [hk, hc]
      rfl
    | false =>
      have hrv : k.revoked = true := by
        cases hr : k.revoked with
        | true => rfl
        | false => simp [hc, hr] at h
      simp only [hk, hc, hrv]
      rfl

/-- A revoked key makes `signCredentialJWT` fail with the
cannot-use-revoked-key error. -/
lemma signCredentialJWT_revoked (s : Service) (vm : String) (cred : VerifiableCredential)
    (k : StoredKey) (hk : s.keyStore (s.fullyQualifiedID cred.issuer vm) = some k)
    (hctrl : k.controller = cred.issuer) (hrv : k.revoked = true) :
    s.signCredentialJWT vm cred = .error (.keyRevoked k.id) := by
  simp only [Service.signCredentialJWT]
  simp [hk, hctrl, hrv]

/-- Inversion of a successful `buildAndStoreCredential` run: the returned
container carries the generated id, false flags, the request issuer, the
subject map with the id key set, a JWT produced by `signCredentialJWT` on
the built credential, and the final state is the store of that container. -/
lemma buildAndStore_ok_shape {s : Service} {o : Oracle} {req : CreateCredentialRequest}
    {tx : ServiceState} {c : Container} {tx' : ServiceState}
    (h : buildAndStoreCredential s o req tx = .ok (c, tx')) :
    c.id = o.credentialID ∧ c.revoked = false ∧ c.suspended = false ∧
    c.credential.issuer = req.issuer ∧
    c.credential.credentialSubject = .claims (setKey req.data "id" (Val.str req.subject)) ∧
    (∃ jwt, s.signCredentialJWT req.fullyQualifiedVerificationMethodID c.credential = .ok jwt ∧
      c.credentialJWT = jwt) ∧
    (∃ τ, tx' = storeCredential τ (toStoredCredential c)) := by
  simp only [buildAndStoreCredential] at h
  repeat' (split at h)
  all_goals try (exact Except.noConfusion h)
  all_goals simp only [Except.ok.injEq, Prod.mk.injEq] at h
  all_goals obtain ⟨hc, ht⟩ := h
  all_goals subst hc
  all_goals subst ht
  all_goals exact ⟨rfl, rfl, rfl, rfl, rfl, ⟨_, by assumption, rfl⟩, ⟨_, rfl⟩⟩

/-- Inversion of a successful `createCredential` run: same shape as
`buildAndStore_ok_shape`. -/
lemma createCredential_ok_shape {s : Service} {o : Oracle} {req : CreateCredentialRequest}
    {tx : ServiceState} {c : Container} {tx' : ServiceState}
    (h : createCredential s o req tx = .ok (c, tx')) :
    c.id = o.credentialID ∧ c.revoked = false ∧ c.suspended = false ∧
    c.credential.issuer = req.issuer ∧
    c.credential.credentialSubject = .claims (setKey req.data "id" (Val.str req.subject)) ∧
    (∃ jwt, s.signCredentialJWT req.fullyQualifiedVerificationMethodID c.credential = .ok jwt ∧
      c.credentialJWT = jwt) ∧
    (∃ τ, tx' = storeCredential τ (toStoredCredential c)) := by
  simp only [createCredential] at h
  repeat' (split at h)
  all_goals try (exact Except.noConfusion h)
  all_goals exact buildAndStore_ok_shape h

/-- Unfolding lemma for association-list lookup on a cons cell. -/
lemma lookupKV_cons {α : Type} (p : String × α) (t : List (String × α)) (k : String) :
    lookupKV (p :: t) k = if p.1 == k then some p.2 else lookupKV t k := by
  by_cases h : (p.1 == k) = true
  · simp [lookupKV, List.find?_cons_of_pos _ h, h]
  · simp [lookupKV, List.find?_cons_of_neg _ h, h]

/-- The Go map-set replacement leaves lookups of other keys unchanged. -/
lemma lookupKV_map_replace_ne {k k' : String} {v : Val} (hne : k' ≠ k) :
    ∀ m : List (String × Val),
      lookupKV (m.map (fun p => if p.1 = k then (k, v) else p)) k' = lookupKV m k' := by
  intro m
  induction m with
  | nil => rfl
  | cons p t ih =>
    by_cases hp : p.1 = k
    · have h1 : ((k, v).1 == k') = false := by
        simp only [beq_eq_false_iff_ne]
        exact fun he => hne he.symm
      have h2 : (p.1 == k') = false := by
        simp only [beq_eq_false_iff_ne, hp]
        exact fun he => hne he.symm
      rw [List.map_cons, if_pos hp, lookupKV_cons, lookupKV_cons, h1, h2]
      simpa using ih
    · rw [List.map_cons, if_neg hp, lookupKV_cons, lookupKV_cons]
      by_cases hq : (p.1 == k') = true
      · simp [hq]
      · simp only [hq]
        simpa using ih

/-- The Go map-set replacement rewrites the key that is present. -/
lemma lookupKV_map_replace_eq {k : String} {v : Val} :
    ∀ m : List (String × Val), (lookupKV m k).isSome = true →
      lookupKV (m.map (fun p => if p.1 = k then (k, v) else p)) k = some v := by
  intro m
  induction m with
  | nil => intro hs; simp [lookupKV] at hs
  | cons p t ih =>
    intro hs
    by_cases hp : p.1 = k
    · rw [List.map_cons, if_pos hp, lookupKV_cons]
      simp
    · rw [lookupKV_cons] at hs
      have hbeq : (p.1 == k) = false := by simpa using hp
      rw [hbeq] at hs
      simp at hs
      rw [List.map_cons, if_neg hp, lookupKV_cons, hbeq]
      simpa using ih (by simpa using hs)

/-- When the key is absent on the left, lookup skips over an appended list. -/
lemma lookupKV_append_of_none {α : Type} {m : List (String × α)} {k : String}
    (h : lookupKV m k = none) (l2 : List (String × α)) :
    lookupKV (m ++ l2) k = lookupKV l2 k := by
  have hfind : m.find? (fun p => p.1 == k) = none := by
    by_contra hc
    rcases Option.ne_none_iff_exists'.1 hc with ⟨q, hq⟩
    simp [lookupKV, hq] at h
  simp [lookupKV, List.find?_append, hfind]

/-- `setKey` behaves as a Go map update: the set key reads back the new
value, every other key is unchanged. -/
lemma lookupKV_setKey (m : List (String × Val)) (k : String) (v : Val) (k' : String) :
    lookupKV (setKey m k v) k' = if k' = k then some v else lookupKV m k' := by
  unfold setKey
  by_cases hs : (lookupKV m k).isSome = true
  · rw [if_pos hs]
    by_cases hk : k' = k
    · subst hk
      rw [if_pos rfl]
      exact lookupKV_map_replace_eq m hs
    · rw [if_neg hk]
      exact lookupKV_map_replace_ne hk m
  · have hnone : lookupKV m k = none := by
      cases hq : lookupKV m k with
      | none => rfl
      | some q => rw [hq] at hs; simp at hs
    rw [if_neg (by simp [hs])]
    by_cases hk : k' = k
    · subst hk
      rw [if_pos rfl, lookupKV_append_of_none hnone, lookupKV_cons]
      simp
    · rw [if_neg hk]
      have hbeq : ((k, v).1 == k') = false := by
        simp only [beq_eq_false_iff_ne]
        exact fun he => hk he.symm
      cases hq : lookupKV m k' with
      | some q =>
        have hfind : ∃ p, m.find? (fun p => p.1 == k') = some p ∧ p.2 = q := by
          simp only [lookupKV] at hq
          cases hf : m.find? (fun p => p.1 == k') with
          | none => rw [hf] at hq; simp at hq
          | some p => rw [hf] at hq; exact ⟨p, rfl, by simpa using hq⟩
        rcases hfind with ⟨p, hp, hpv⟩
        simp [lookupKV, List.find?_append, hp, hpv]
      | none =>
        rw [lookupKV_append_of_none hq, lookupKV_cons, hbeq]
        rfl

/-- Reading back the credential that a store just wrote yields it. -/
lemma getCredential_store (σ : ServiceState) (c : StoredCredential) :
    getCredential (storeCredential σ c) c.localCredentialID = some c := by
  simp [getCredential, storeCredential]

/-- A successful `CreateCredential` comes from a successful run of its
transaction body on the starting state. -/
lemma CreateCredential_ok_inv {s : Service} {o : Oracle} {req : CreateCredentialRequest}
    {σ : ServiceState} {resp : Container} {σ2 : ServiceState}
    (h : CreateCredential s o req σ = (.ok resp, σ2)) :
    createCredential s o req σ = .ok (resp, σ2) := by
  simp only [CreateCredential] at h
  split at h
  next => simp at h
  next =>
    simp only [Execute] at h
    split at h
    next a σ1 heq =>
      simp only [Prod.mk.injEq, Except.ok.injEq] at h
      obtain ⟨h1, h2⟩ := h
      subst h1
      subst h2
      exact heq
    next e heq => simp at h

/-- C4: when the request's signing key is missing, has a controller other
than the issuer, or is revoked, credential creation fails and the state is
unchanged, so nothing is written; a revoked key in particular makes the
signing step fail with the cannot-use-revoked-key error. -/
theorem c4_bad_signing_key_fails (s : Service) (o : Oracle)
    (req : CreateCredentialRequest) (σ : ServiceState)
    (hok : req.reqIsValid = true)
    (hbad : badKeyFor s req.issuer req.fullyQualifiedVerificationMethodID = true) :
    (CreateCredential s o req σ).1.isOk = false ∧
    (CreateCredential s o req σ).2 = σ ∧
    (∀ k cred,
      s.keyStore (s.fullyQualifiedID req.issuer req.fullyQualifiedVerificationMethodID) =
        some k →
      k.controller = req.issuer → k.revoked = true → cred.issuer = req.issuer →
      s.signCredentialJWT req.fullyQualifiedVerificationMethodID cred =
        .error (.keyRevoked k.id) ∧
      (Err.keyRevoked k.id).message = "cannot use revoked key<" ++ k.id ++ ">") := by
  have hfail : ∀ c tx', createCredential s o req σ ≠ .ok (c, tx') := by
    intro c tx' hcc
    obtain ⟨-, -, -, hiss, -, ⟨jwt, hsig, -⟩, -⟩ := createCredential_ok_shape hcc
    have hno := signCredentialJWT_not_ok_of_badKey s req.fullyQualifiedVerificationMethodID
      c.credential (by rw [hiss]; exact hbad)
    rw [hsig] at hno
    simp [Except.isOk, Except.toBool] at hno
  refine ⟨?_, ?_, ?_⟩
  · cases hcc : createCredential s o req σ with
    | error e => simp [CreateCredential, hok, Execute, hcc, Except.isOk, Except.toBool]
    | ok val => exact absurd (by rw [hcc]) (hfail val.1 val.2)
  · cases hcc : createCredential s o req σ with
    | error e => simp [CreateCredential, hok, Execute, hcc, Except.isOk, Except.toBool]
    | ok val => exact absurd (by rw [hcc]) (hfail val.1 val.2)
  · intro k cred hk hctrl hrv hiss
    refine ⟨?_, rfl⟩
    exact signCredentialJWT_revoked s req.fullyQualifiedVerificationMethodID cred k
      (by rw [hiss]; exact hk) (by rw [hiss]; exact hctrl) hrv

/-- Witness for C4 at a service whose key store returns a revoked key. -/
theorem c4_witness :
    (CreateCredential revokedKeyService demoOracle demoCreateReq emptyState).1.isOk = false ∧
    (CreateCredential revokedKeyService demoOracle demoCreateReq emptyState).2 = emptyState ∧
    (∀ k cred,
      revokedKeyService.keyStore (revokedKeyService.fullyQualifiedID demoCreateReq.issuer
        demoCreateReq.fullyQualifiedVerificationMethodID) = some k →
      k.controller = demoCreateReq.issuer → k.revoked = true →
      cred.issuer = demoCreateReq.issuer →
      revokedKeyService.signCredentialJWT demoCreateReq.fullyQualifiedVerificationMethodID
        cred = .error (.keyRevoked k.id) ∧
      (Err.keyRevoked k.id).message = "cannot use revoked key<" ++ k.id ++ ">") :=
  c4_bad_signing_key_fails revokedKeyService demoOracle demoCreateReq emptyState
    (by decide) (by decide)

/-- C8: a successful create followed by a get of the returned id yields the
same VC document and the same CredentialJWT, with revoked and suspended
both false. -/
theorem c8_create_then_get (s : Service) (o : Oracle) (req : CreateCredentialRequest)
    (σ : ServiceState) (resp : Container) (σ2 : ServiceState)
    (h : CreateCredential s o req σ = (.ok resp, σ2))
    (hid : o.credentialID ≠ "") :
    GetCredential σ2 resp.id = .ok
      { id := resp.id
        fullyQualifiedVerificationMethodID := ""
        credential := resp.credential
        credentialJWT := resp.credentialJWT
        revoked := false
        suspended := false } ∧
    resp.revoked = false ∧ resp.suspended = false := by
  have hcc := CreateCredential_ok_inv h
  obtain ⟨hcid, hrev, hsus, -, -, -, τ, hτ⟩ := createCredential_ok_shape hcc
  have hkey : (toStoredCredential resp).localCredentialID = resp.id := rfl
  have hget : getCredential σ2 resp.id = some (toStoredCredential resp) := by
    rw [hτ, ← hkey]
    exact getCredential_store τ (toStoredCredential resp)
  have hvalid : (toStoredCredential resp).IsValid = true := by
    simp [StoredCredential.IsValid, toStoredCredential, hcid, hid]
  refine ⟨?_, hrev, hsus⟩
  simp only [GetCredential, hget, hvalid]
  simp [toStoredCredential, hrev, hsus]

/-- Witness for C8: the concrete demo create succeeds and the subsequent
get returns the same credential and JWT with false flags. -/
theorem c8_witness :
    GetCredential c8state c8resp.id = .ok
      { id := c8resp.id
        fullyQualifiedVerificationMethodID := ""
        credential := c8resp.credential
        credentialJWT := c8resp.credentialJWT
        revoked := false
        suspended := false } ∧
    c8resp.revoked = false ∧ c8resp.suspended = false :=
  c8_create_then_get demoService demoOracle demoCreateReq emptyState c8resp c8state
    rfl (by decide)

/-- C9: if the data map holds an id differing from the requested subject,
creation fails with the subject-conflict error and the state is unchanged;
otherwise a successful creation builds the credential subject as the data
map with the id key set to the requested subject. -/
theorem c9_subject_id_handling (s : Service) (o : Oracle) (req : CreateCredentialRequest)
    (σ : ServiceState) (hok : req.reqIsValid = true) (hsv : req.isStatusValid = true) :
    (∀ v, lookupKV req.data "id" = some v → v ≠ Val.str req.subject →
      CreateCredential s o req σ = (.error (.subjectIDConflict req.subject v), σ)) ∧
    (∀ resp σ2, CreateCredential s o req σ = (.ok resp, σ2) →
      ∃ m, resp.credential.credentialSubject = CredSubject.claims m ∧
        ∀ k, lookupKV m k =
          if k = "id" then some (Val.str req.subject) else lookupKV req.data k) := by
  constructor
  · intro v hv hne
    have hbne : (v != Val.str req.subject) = true := by simpa using hne
    have herr : createCredential s o req σ = .error (.subjectIDConflict req.subject v) := by
      simp [createCredential, hsv, hv, hbne]
    simp [CreateCredential, hok, Execute, herr]
  · intro resp σ2 h
    have hcc := CreateCredential_ok_inv h
    obtain ⟨-, -, -, -, hsubj, -, -⟩ := createCredential_ok_shape hcc
    exact ⟨_, hsubj, fun k => lookupKV_setKey req.data "id" (Val.str req.subject) k⟩

/-- Witness for C9: the conflicting demo request is rejected with the
subject-conflict error, and the demo create builds the subject map. -/
theorem c9_witness :
    (∀ v, lookupKV conflictReq.data "id" = some v → v ≠ Val.str conflictReq.subject →
      CreateCredential demoService demoOracle conflictReq emptyState =
        (.error (.subjectIDConflict conflictReq.subject v), emptyState)) ∧
    (∀ resp σ2, CreateCredential demoService demoOracle conflictReq emptyState =
        (.ok resp, σ2) →
      ∃ m, resp.credential.credentialSubject = CredSubject.claims m ∧
        ∀ k, lookupKV m k =
          if k = "id" then some (Val.str conflictReq.subject)
          else lookupKV conflictReq.data k) :=
  c9_subject_id_handling demoService demoOracle conflictReq emptyState (by decide) (by decide)

/-- The watch keys the batch loop accumulates are the flattening of each
item's create watch keys. -/
lemma batchCreateWatchKeys_eq_flatten (reqs : List CreateCredentialRequest) :
    batchCreateWatchKeys reqs = (reqs.map createWatchKeys).flatten := by
  induction reqs with
  | nil => rfl
  | cons r rest ih => simp [batchCreateWatchKeys, ih]

/-- A successful batch run returns one container per item, in order, each
carrying its own item's generated credential id. -/
lemma runBatchCreate_ok_len {s : Service} :
    ∀ (items : List (Oracle × CreateCredentialRequest)) (tx : ServiceState)
      (cs : List Container) (tx2 : ServiceState),
      runBatchCreate s items tx = .ok (cs, tx2) →
      cs.length = items.length ∧
      ∀ i (h1 : i < cs.length) (h2 : i < items.length),
        (cs.get ⟨i, h1⟩).id = ((items.get ⟨i, h2⟩).1).credentialID := by
  intro items
  induction items with
  | nil =>
    intro tx cs tx2 h
    simp only [runBatchCreate, Except.ok.injEq, Prod.mk.injEq] at h
    obtain ⟨h1, h2⟩ := h
    subst h1
    subst h2
    exact ⟨rfl, fun i h1 h2 => absurd h1 (by simp)⟩
  | cons item rest ih =>
    intro tx cs tx2 h
    simp only [runBatchCreate] at h
    split at h
    next e heq => simp at h
    next c tx1 heq1 =>
      split at h
      next e heq => simp at h
      next cs' tx2' heq2 =>
        simp only [Except.ok.injEq, Prod.mk.injEq] at h
        obtain ⟨h1, h2⟩ := h
        subst h1
        subst h2
        obtain ⟨hlen, hidx⟩ := ih tx1 cs' tx2' heq2
        have hid := (createCredential_ok_shape heq1).1
        refine ⟨by simp [hlen], ?_⟩
        intro i hi1 hi2
        cases i with
        | zero => simpa using hid
        | succ n =>
          exact hidx n (by simpa using hi1) (by simpa using hi2)

/-- C7: every item of a batch create runs inside one `Execute`; the batch's
watch keys are the concatenation of every item's triple watch keys; a
failing item makes the whole batch fail with the state unchanged, so no
credential of the batch persists; a successful batch returns one container
per request, in request order, each with its own item's credential id. -/
theorem c7_batch_create_atomic (s : Service)
    (items : List (Oracle × CreateCredentialRequest)) (σ : ServiceState) :
    (batchCreateWatchKeys (items.map (fun it => it.2)) =
      ((items.map (fun it => it.2)).map createWatchKeys).flatten) ∧
    (∀ e, (BatchCreateCredentials s items σ).1 = .error e →
      (BatchCreateCredentials s items σ).2 = σ) ∧
    (∀ cs, (BatchCreateCredentials s items σ).1 = .ok cs →
      cs.length = items.length ∧
      ∀ i (h1 : i < cs.length) (h2 : i < items.length),
        (cs.get ⟨i, h1⟩).id = ((items.get ⟨i, h2⟩).1).credentialID) := by
  refine ⟨batchCreateWatchKeys_eq_flatten _, ?_, ?_⟩
  · intro e he
    cases hrun : runBatchCreate s items σ with
    | error e1 => simp [BatchCreateCredentials, Execute, hrun]
    | ok val =>
      have : (BatchCreateCredentials s items σ).1 = .ok val.1 := by
        simp [BatchCreateCredentials, Execute, hrun]
      rw [this] at he
      simp at he
  · intro cs hcs
    cases hrun : runBatchCreate s items σ with
    | error e1 =>
      have : (BatchCreateCredentials s items σ).1 = .error e1 := by
        simp [BatchCreateCredentials, Execute, hrun]
      rw [this] at hcs
      simp at hcs
    | ok val =>
      have hfst : (BatchCreateCredentials s items σ).1 = .ok val.1 := by
        simp [BatchCreateCredentials, Execute, hrun]
      rw [hfst] at hcs
      simp only [Except.ok.injEq] at hcs
      subst hcs
      exact runBatchCreate_ok_len items σ val.1 val.2 (by rw [hrun])

/-- Witness for C7: the two-item demo batch succeeds and its watch-key list
is the flattening of the per-item keys. -/
theorem c7_witness :
    (BatchCreateCredentials demoService demoItems emptyState).1.isOk = true ∧
    batchCreateWatchKeys demoReqs = (demoReqs.map createWatchKeys).flatten := by
  constructor
  · rfl
  · exact (c7_batch_create_atomic demoService demoItems emptyState).1

end SSI
